import Mathlib

/-!
# Verification of the claude-code-plugin-xero caching layer and client

This file gives a shallow embedding of the Xero API client of this repository
(`xero-client.ts`) together with the generic TTL cache it consumes.  The cache
implementation itself lives in the external workspace package
`@local/plugin-cache` and is not part of the repository sources, so the cache
operations (`getOrFetch`, `invalidate`, `invalidatePattern`, `clear`,
`disable`/`enable`, `getStats`, `createCacheKey` and the `TTL` presets) are
modelled from the specification.  Everything in the `XeroClient` section is
translated from `xero-client.ts`; the HTTP layer is abstracted as an
environment of response oracles, as the specification treats it as an external
collaborator.

Time is an explicit natural-number parameter (milliseconds); producers are
modelled as their outcome (`Except`), and each cache read reports whether the
producer was invoked.
-/

namespace XeroPlugin

/-- Byte-level comparison of characters by code point, used to give the cache
key serializer a concrete stable order. -/
def charLe (a b : Char) : Bool := a.toNat ≤ b.toNat

/-- Lexicographic comparison of character lists built on `charLe`. -/
def strLeAux : List Char → List Char → Bool
  | [], _ => true
  | _ :: _, [] => false
  | a :: l1, b :: l2 => if a = b then strLeAux l1 l2 else charLe a b

/-- Lexicographic order on strings (via their character data). -/
def strLe (a b : String) : Bool := strLeAux a.data b.data

/-- Prefix test on strings (via their character data); this is how the
`/^contacts/` invalidation pattern is interpreted over cache keys. -/
def strStartsWith (s p : String) : Bool := p.data.isPrefixOf s.data

-- ==================== Cache data model ====================

/-- Modelled from the spec: a `CacheEntry` pairs the stored value with its
absolute `expiresAt` timestamp and its `createdAt` insertion time. -/
structure CacheEntry (V : Type) where
  value : V
  expiresAt : Nat
  createdAt : Nat
deriving Repr, DecidableEq

/-- Modelled from the spec: the state of one `PluginCache` instance from
`@local/plugin-cache` — its entries (key unique within the namespace),
cumulative hit/miss counters, the global enable flag, and the configured
default TTL.  All keys are already namespace-local. -/
structure CacheState (V : Type) where
  entries : List (String × CacheEntry V)
  hits : Nat
  misses : Nat
  enabled : Bool
  defaultTTL : Nat
deriving Repr, DecidableEq

/-- Modelled from the spec: a freshly constructed cache — no entries, zero
statistics, enabled. -/
def CacheState.init (V : Type) (defaultTTL : Nat) : CacheState V :=
  { entries := [], hits := 0, misses := 0, enabled := true, defaultTTL := defaultTTL }

/-- Modelled from the spec: look up a live entry.  An entry whose `expiresAt`
has passed is treated as absent (lazy expiry). -/
def lookupLive {V : Type} (st : CacheState V) (now : Nat) (key : String) : Option V :=
  match st.entries.find? (fun kv => kv.1 == key) with
  | some kv => if now ≤ kv.2.expiresAt then some kv.2.value else none
  | none => none

/-- Modelled from the spec: store a value under `key` with
`expiresAt = now + ttl`, replacing any previous entry for that key. -/
def storeEntry {V : Type} (st : CacheState V) (now : Nat) (key : String) (v : V)
    (ttl : Nat) : CacheState V :=
  { st with entries :=
      (key, { value := v, expiresAt := now + ttl, createdAt := now })
        :: st.entries.filter (fun kv => !(kv.1 == key)) }

/-- Outcome of one `getOrFetch` call: the returned result, the cache state
afterwards, and whether the supplied producer was invoked. -/
structure FetchResult (E V : Type) where
  result : Except E V
  state : CacheState V
  producerInvoked : Bool
deriving Repr

/-- Modelled from the spec: `getOrFetch(key, producer, {ttl, bypassCache})`.
If `bypassCache` is set (per-call, or because the cache was globally
disabled), skip lookup, invoke the producer, return its result and store
nothing.  Otherwise a live entry is a hit; a miss records the miss, invokes
the producer, stores a successful result under `key` with
`expiresAt = now + (ttl ?? defaultTTL)` and returns it, while a failure
propagates unchanged with nothing stored.  The producer is modelled by its
outcome. -/
def getOrFetch {E V : Type} (st : CacheState V) (now : Nat) (key : String)
    (producer : Except E V) (ttl : Option Nat) (bypassCache : Bool) : FetchResult E V :=
  if bypassCache || !st.enabled then
    { result := producer, state := st, producerInvoked := true }
  else
    match lookupLive st now key with
    | some v =>
        { result := Except.ok v
          state := { st with hits := st.hits + 1 }
          producerInvoked := false }
    | none =>
        match producer with
        | Except.ok v =>
            { result := Except.ok v
              state := storeEntry { st with misses := st.misses + 1 } now key v
                (ttl.getD st.defaultTTL)
              producerInvoked := true }
        | Except.error e =>
            { result := Except.error e
              state := { st with misses := st.misses + 1 }
              producerInvoked := true }

/-- Modelled from the spec: `invalidate(key)` removes the entry for `key` if
present and reports whether one was removed. -/
def invalidate {V : Type} (st : CacheState V) (key : String) : Bool × CacheState V :=
  (st.entries.any (fun kv => kv.1 == key),
   { st with entries := st.entries.filter (fun kv => !(kv.1 == key)) })

/-- Modelled from the spec: `invalidatePattern(pattern)` removes every entry
whose key matches the pattern (a predicate over the namespace-local key) and
returns the count removed. -/
def invalidatePattern {V : Type} (st : CacheState V) (pattern : String → Bool) :
    Nat × CacheState V :=
  ((st.entries.filter (fun kv => pattern kv.1)).length,
   { st with entries := st.entries.filter (fun kv => !pattern kv.1) })

/-- Modelled from the spec: `clear()` removes all entries in the namespace and
returns the count removed; statistics persist. -/
def clear {V : Type} (st : CacheState V) : Nat × CacheState V :=
  (st.entries.length, { st with entries := [] })

/-- Modelled from the spec: `disable()` makes all subsequent `getOrFetch`
calls behave as `bypassCache = true`; existing entries are retained. -/
def disable {V : Type} (st : CacheState V) : CacheState V :=
  { st with enabled := false }

/-- Modelled from the spec: `enable()` re-enables caching. -/
def enable {V : Type} (st : CacheState V) : CacheState V :=
  { st with enabled := true }

/-- Modelled from the spec: the statistics record returned by `getStats()`. -/
structure CacheStats where
  hits : Nat
  misses : Nat
  entryCount : Nat
deriving Repr, DecidableEq

/-- Modelled from the spec: `getStats()`; `entryCount` reflects only live
(non-expired) entries. -/
def getStats {V : Type} (st : CacheState V) (now : Nat) : CacheStats :=
  { hits := st.hits
    misses := st.misses
    entryCount := (st.entries.filter (fun kv => now ≤ kv.2.expiresAt)).length }

/-- Modelled from the spec: the named TTL presets (milliseconds) exported by
`@local/plugin-cache`. -/
def TTL.FIVE_MINUTES : Nat := 5 * 60 * 1000

/-- Modelled from the spec: one hour in milliseconds. -/
def TTL.HOUR : Nat := 60 * 60 * 1000

/-- Modelled from the spec: one day in milliseconds. -/
def TTL.DAY : Nat := 24 * 60 * 60 * 1000

/-- Modelled from the spec: seven days in milliseconds. -/
def TTL.SEVEN_DAYS : Nat := 7 * TTL.DAY

-- ==================== Cache helper lemmas ====================

theorem getOrFetch_bypass {E V : Type} (st : CacheState V) (now : Nat) (key : String)
    (producer : Except E V) (ttl : Option Nat) :
    getOrFetch st now key producer ttl true =
      { result := producer, state := st, producerInvoked := true } := by
  simp [getOrFetch]

theorem getOrFetch_disabled {E V : Type} (st : CacheState V) (now : Nat) (key : String)
    (producer : Except E V) (ttl : Option Nat) (bypassCache : Bool)
    (h : st.enabled = false) :
    getOrFetch st now key producer ttl bypassCache =
      { result := producer, state := st, producerInvoked := true } := by
  cases bypassCache <;> simp [getOrFetch, h]

theorem getOrFetch_hit {E V : Type} (st : CacheState V) (now : Nat) (key : String)
    (producer : Except E V) (ttl : Option Nat) (v : V)
    (henabled : st.enabled = true) (hhit : lookupLive st now key = some v) :
    getOrFetch st now key producer ttl false =
      { result := Except.ok v
        state := { st with hits := st.hits + 1 }
        producerInvoked := false } := by
  simp [getOrFetch, henabled, hhit]

theorem getOrFetch_miss_ok {E V : Type} (st : CacheState V) (now : Nat) (key : String)
    (v : V) (ttl : Option Nat)
    (henabled : st.enabled = true) (hmiss : lookupLive st now key = none) :
    getOrFetch st now key (Except.ok v : Except E V) ttl false =
      { result := Except.ok v
        state := storeEntry { st with misses := st.misses + 1 } now key v
          (ttl.getD st.defaultTTL)
        producerInvoked := true } := by
  simp [getOrFetch, henabled, hmiss]

theorem getOrFetch_miss_error {E V : Type} (st : CacheState V) (now : Nat) (key : String)
    (e : E) (ttl : Option Nat)
    (henabled : st.enabled = true) (hmiss : lookupLive st now key = none) :
    getOrFetch st now key (Except.error e : Except E V) ttl false =
      { result := Except.error e
        state := { st with misses := st.misses + 1 }
        producerInvoked := true } := by
  simp [getOrFetch, henabled, hmiss]

theorem find?_filter_of_not {V : Type} (l : List (String × CacheEntry V))
    (q : String → Bool) (key : String) (h : q key = false) :
    (l.filter (fun kv => !q kv.1)).find? (fun kv => kv.1 == key) =
      l.find? (fun kv => kv.1 == key) := by
  induction l with
  | nil => simp
  | cons a l ih =>
    by_cases hk : a.1 = key
    · simp [List.filter_cons, List.find?_cons, hk, h]
    · have hne : (a.1 == key) = false := by simp [hk]
      by_cases hqa : q a.1 = true
      · simp [List.filter_cons, List.find?_cons, hqa, hne, ih]
      · simp only [Bool.not_eq_true] at hqa
        simp [List.filter_cons, List.find?_cons, hqa, hne, ih]

theorem lookupLive_filter_of_not {V : Type} (st : CacheState V) (q : String → Bool)
    (now : Nat) (key : String) (h : q key = false) :
    lookupLive { st with entries := st.entries.filter (fun kv => !q kv.1) } now key =
      lookupLive st now key := by
  simp only [lookupLive]
  rw [find?_filter_of_not st.entries q key h]

theorem lookupLive_storeEntry_self {V : Type} (st : CacheState V) (now now2 : Nat)
    (key : String) (v : V) (ttl : Nat) :
    lookupLive (storeEntry st now key v ttl) now2 key =
      if now2 ≤ now + ttl then some v else none := by
  simp [lookupLive, storeEntry, List.find?_cons]

theorem lookupLive_absent {V : Type} (st : CacheState V) (now : Nat) (key : String)
    (h : st.entries.find? (fun kv => kv.1 == key) = none) :
    lookupLive st now key = none := by
  simp [lookupLive, h]

-- ==================== Cache key construction ====================

/-- Modelled from the spec: the defined (neither undefined nor null) fields of
a parameter object.  A parameter object is a list of named fields whose value
is `none` when the field is undefined/null. -/
def definedParams (params : List (String × Option String)) : List (String × String) :=
  params.filterMap (fun p => p.2.map (fun v => (p.1, v)))

/-- Comparison of parameter fields by field name, used for the stable
serialization order. -/
def fieldLe (a b : String × String) : Bool := strLe a.1 b.1

/-- Modelled from the spec: sort the defined fields lexicographically by field
name. -/
def sortParams (fields : List (String × String)) : List (String × String) :=
  fields.mergeSort fieldLe

/-- Modelled from the spec: serialize the sorted defined fields. -/
def serializeParams : List (String × String) → String
  | [] => ""
  | [(n, v)] => n ++ "=" ++ v
  | (n, v) :: rest => n ++ "=" ++ v ++ "&" ++ serializeParams rest

/-- Modelled from the spec: `createCacheKey(operationName, parameterObject)` —
a deterministic key omitting undefined/null fields and serializing the
remaining fields sorted by field name. -/
def createCacheKey (operationName : String) (params : List (String × Option String)) :
    String :=
  operationName ++ ":" ++ serializeParams (sortParams (definedParams params))

-- ==================== Order lemmas for the key serializer ====================

theorem charToNat_inj {a b : Char} (h : a.toNat = b.toNat) : a = b :=
  Char.eq_of_val_eq (UInt32.ext h)

theorem charLe_total (a b : Char) : charLe a b = true ∨ charLe b a = true := by
  simp only [charLe, decide_eq_true_eq]
  exact Nat.le_total a.toNat b.toNat

theorem strLeAux_total (l1 l2 : List Char) :
    strLeAux l1 l2 = true ∨ strLeAux l2 l1 = true := by
  induction l1 generalizing l2 with
  | nil => left; rfl
  | cons a l1 ih =>
    cases l2 with
    | nil => right; rfl
    | cons b l2 =>
      by_cases hab : a = b
      · subst hab
        simpa [strLeAux] using ih l2
      · have hba : ¬ b = a := fun h => hab h.symm
        simpa [strLeAux, hab, hba] using charLe_total a b

theorem strLeAux_antisymm (l1 l2 : List Char)
    (h1 : strLeAux l1 l2 = true) (h2 : strLeAux l2 l1 = true) : l1 = l2 := by
  induction l1 generalizing l2 with
  | nil =>
    cases l2 with
    | nil => rfl
    | cons b l2 => simp [strLeAux] at h2
  | cons a l1 ih =>
    cases l2 with
    | nil => simp [strLeAux] at h1
    | cons b l2 =>
      by_cases hab : a = b
      · subst hab
        simp only [strLeAux, if_pos rfl] at h1 h2
        rw [ih l2 h1 h2]
      · have hba : ¬ b = a := fun h => hab h.symm
        simp only [strLeAux, if_neg hab] at h1
        simp only [strLeAux, if_neg hba] at h2
        simp only [charLe, decide_eq_true_eq] at h1 h2
        exact absurd (charToNat_inj (Nat.le_antisymm h1 h2)) hab

theorem strLeAux_trans (l1 l2 l3 : List Char)
    (h1 : strLeAux l1 l2 = true) (h2 : strLeAux l2 l3 = true) :
    strLeAux l1 l3 = true := by
  induction l1 generalizing l2 l3 with
  | nil => rfl
  | cons a l1 ih =>
    cases l2 with
    | nil => simp [strLeAux] at h1
    | cons b l2 =>
      cases l3 with
      | nil => simp [strLeAux] at h2
      | cons c l3 =>
        by_cases hab : a = b
        · subst hab
          simp only [strLeAux, if_pos rfl] at h1
          by_cases hac : a = c
          · subst hac
            simp only [strLeAux, if_pos rfl] at h2 ⊢
            exact ih l2 l3 h1 h2
          · simp only [strLeAux, if_neg hac] at h2 ⊢
            exact h2
        · simp only [strLeAux, if_neg hab] at h1
          by_cases hbc : b = c
          · subst hbc
            have hac : ¬ a = b := hab
            simp only [strLeAux, if_neg hac]
            exact h1
          · simp only [strLeAux, if_neg hbc] at h2
            simp only [charLe, decide_eq_true_eq] at h1 h2
            by_cases hac : a = c
            · exfalso
              subst hac
              exact hab (charToNat_inj (Nat.le_antisymm h1 h2))
            · simp only [strLeAux, if_neg hac, charLe, decide_eq_true_eq]
              exact Nat.le_trans h1 h2

theorem strLe_antisymm (a b : String)
    (h1 : strLe a b = true) (h2 : strLe b a = true) : a = b := by
  cases a with
  | mk da =>
    cases b with
    | mk db =>
      simp only [strLe] at h1 h2
      rw [strLeAux_antisymm da db h1 h2]

theorem fieldLe_total (a b : String × String) : (fieldLe a b || fieldLe b a) = true := by
  rcases strLeAux_total a.1.data b.1.data with h | h <;>
    simp [fieldLe, strLe, h]

theorem fieldLe_trans (a b c : String × String)
    (h1 : fieldLe a b = true) (h2 : fieldLe b c = true) : fieldLe a c = true :=
  strLeAux_trans a.1.data b.1.data c.1.data h1 h2

/-- The strict order used to show that sorting a duplicate-free-by-name field
list is unique: field names strictly related. -/
def fieldStrict (a b : String × String) : Prop := fieldLe a b = true ∧ a.1 ≠ b.1

instance : IsAntisymm (String × String) fieldStrict :=
  ⟨fun a b hab hba => absurd (strLe_antisymm a.1 b.1 hab.1 hba.1) hab.2⟩

theorem sorted_fieldStrict_mergeSort (l : List (String × String))
    (hnodup : (l.map Prod.fst).Nodup) :
    (l.mergeSort fieldLe).Sorted fieldStrict := by
  have hsorted : (l.mergeSort fieldLe).Pairwise (fun a b => fieldLe a b = true) :=
    List.sorted_mergeSort fieldLe_trans fieldLe_total l
  have hperm : (l.mergeSort fieldLe).Perm l := List.mergeSort_perm l fieldLe
  have hnodup2 : ((l.mergeSort fieldLe).map Prod.fst).Nodup :=
    (hperm.map Prod.fst).symm.nodup hnodup
  have hne : (l.mergeSort fieldLe).Pairwise (fun a b => a.1 ≠ b.1) :=
    List.pairwise_map.mp hnodup2
  exact hsorted.and hne

theorem sortParams_eq_of_perm (l1 l2 : List (String × String))
    (hperm : l1.Perm l2) (hnodup : (l1.map Prod.fst).Nodup) :
    sortParams l1 = sortParams l2 := by
  have hnodup2 : (l2.map Prod.fst).Nodup := (hperm.map Prod.fst).nodup hnodup
  have hp : (l1.mergeSort fieldLe).Perm (l2.mergeSort fieldLe) :=
    ((List.mergeSort_perm l1 fieldLe).trans hperm).trans
      (List.mergeSort_perm l2 fieldLe).symm
  exact List.eq_of_perm_of_sorted hp
    (sorted_fieldStrict_mergeSort l1 hnodup)
    (sorted_fieldStrict_mergeSort l2 hnodup2)

-- ==================== Xero domain model (from src) ====================

/-- A Xero contact, reduced to the fields the verified operations read. -/
structure Contact where
  contactID : String
  name : String
deriving Repr, DecidableEq

/-- A Xero account; `code` is optional, exactly as `Account.Code` is optional
in `types.ts`. -/
structure Account where
  accountID : String
  code : Option String
deriving Repr, DecidableEq

/-- A created Xero payment (identified by its ID). -/
structure Payment where
  paymentID : String
deriving Repr, DecidableEq

/-- The values the shared client cache stores: contact lists for `contacts:*`
keys, account lists for `accounts:*` keys, and the tax-rate and organisation
payloads for their fixed keys. -/
inductive XValue where
  | contacts (cs : List Contact)
  | accounts (accs : List Account)
  | taxRates (ts : List String)
  | organisation (org : Option String)
deriving Repr, DecidableEq

/-- Options of `listContacts` (`page`, `where`, `order`, `tenantId`); the
source field `where` is spelled `whereClause` because `where` is reserved. -/
structure ListContactsOptions where
  page : Option Nat
  whereClause : Option String
  order : Option String
  tenantId : Option String
deriving Repr, DecidableEq

/-- Options of `listAccounts` (`where`, `order`, `tenantId`). -/
structure ListAccountsOptions where
  whereClause : Option String
  order : Option String
  tenantId : Option String
deriving Repr, DecidableEq

/-- Options of `createContact`. -/
structure CreateContactOptions where
  name : String
  email : Option String
  firstName : Option String
  lastName : Option String
  phone : Option String
  tenantId : Option String
deriving Repr, DecidableEq

/-- Update fields of `updateContact`. -/
structure UpdateContactOptions where
  name : Option String
  email : Option String
  firstName : Option String
  lastName : Option String
  phone : Option String
  tenantId : Option String
deriving Repr, DecidableEq

/-- Options of `createPayment`. -/
structure CreatePaymentOptions where
  invoiceId : String
  accountCode : String
  amount : Int
  date : Option String
  reference : Option String
  tenantId : Option String
deriving Repr, DecidableEq

/-- The HTTP layer, which the specification treats as an external
collaborator, abstracted as response oracles: each field gives the outcome of
the corresponding authenticated Xero API request. -/
structure Env where
  fetchContacts : ListContactsOptions → Except String (List Contact)
  fetchAccounts : ListAccountsOptions → Except String (List Account)
  fetchTaxRates : Option String → Except String (List String)
  fetchOrganisation : Option String → Except String (Option String)
  createContactResponse : CreateContactOptions → Except String (List Contact)
  updateContactResponse : String → UpdateContactOptions → Except String (List Contact)
  createPaymentResponse : CreatePaymentOptions → String → Except String Payment

/-- The cache key built by `listContacts`:
`createCacheKey("contacts", { page, where, order })` — the tenant ID is not
part of the key. -/
def contactsCacheKey (options : ListContactsOptions) : String :=
  createCacheKey "contacts"
    [("page", options.page.map (fun n => Nat.repr n)),
     ("where", options.whereClause),
     ("order", options.order)]

/-- The cache key built by `listAccounts`:
`createCacheKey("accounts", { where, order })` — the tenant ID is not part of
the key. -/
def accountsCacheKey (options : ListAccountsOptions) : String :=
  createCacheKey "accounts"
    [("where", options.whereClause), ("order", options.order)]

/-- `listContacts`: read-through cached under `contactsCacheKey` with a 1-hour
TTL, bypassing when `this.cacheDisabled` is set; the producer issues the
`GET /Contacts` request with the tenant resolved from `options.tenantId`. -/
def listContacts (env : Env) (cacheDisabled : Bool) (cst : CacheState XValue)
    (now : Nat) (options : ListContactsOptions) : FetchResult String XValue :=
  getOrFetch cst now (contactsCacheKey options)
    ((env.fetchContacts options).map XValue.contacts)
    (some TTL.HOUR) cacheDisabled

/-- `listAccounts`: read-through cached under `accountsCacheKey` with a 1-day
TTL. -/
def listAccounts (env : Env) (cacheDisabled : Bool) (cst : CacheState XValue)
    (now : Nat) (options : ListAccountsOptions) : FetchResult String XValue :=
  getOrFetch cst now (accountsCacheKey options)
    ((env.fetchAccounts options).map XValue.accounts)
    (some TTL.DAY) cacheDisabled

/-- `listTaxRates`: read-through cached under the fixed key `"tax_rates"`
with a 1-day TTL. -/
def listTaxRates (env : Env) (cacheDisabled : Bool) (cst : CacheState XValue)
    (now : Nat) (tenantId : Option String) : FetchResult String XValue :=
  getOrFetch cst now "tax_rates"
    ((env.fetchTaxRates tenantId).map XValue.taxRates)
    (some TTL.DAY) cacheDisabled

/-- `getOrganisation`: read-through cached under the fixed key
`"organisation"` with a 1-day TTL. -/
def getOrganisation (env : Env) (cacheDisabled : Bool) (cst : CacheState XValue)
    (now : Nat) (tenantId : Option String) : FetchResult String XValue :=
  getOrFetch cst now "organisation"
    ((env.fetchOrganisation tenantId).map XValue.organisation)
    (some TTL.DAY) cacheDisabled

/-- The invalidation pattern `/^contacts/` used after contact writes, read as
a predicate over namespace-local cache keys. -/
def contactsPattern (key : String) : Bool := strStartsWith key "contacts"

/-- `createContact`: POST `/Contacts`; on an empty response array it throws
`"Failed to create contact - no contact returned"`; on success it invalidates
every `contacts*` cache entry and returns the first contact. -/
def createContact (env : Env) (cst : CacheState XValue)
    (options : CreateContactOptions) : Except String Contact × CacheState XValue :=
  match env.createContactResponse options with
  | Except.error e => (Except.error e, cst)
  | Except.ok [] => (Except.error "Failed to create contact - no contact returned", cst)
  | Except.ok (c :: _) => (Except.ok c, (invalidatePattern cst contactsPattern).2)

/-- `updateContact`: POST `/Contacts/{id}`; on an empty response array it
throws `"Failed to update contact - no contact returned"`; on success it
invalidates every `contacts*` cache entry and returns the first contact. -/
def updateContact (env : Env) (contactId : String) (updates : UpdateContactOptions)
    (cst : CacheState XValue) : Except String Contact × CacheState XValue :=
  match env.updateContactResponse contactId updates with
  | Except.error e => (Except.error e, cst)
  | Except.ok [] => (Except.error "Failed to update contact - no contact returned", cst)
  | Except.ok (c :: _) => (Except.ok c, (invalidatePattern cst contactsPattern).2)

/-- `createPayment`: first looks the account up by code via `listAccounts`
(so possibly from the accounts cache); when no account has the requested code
it throws `"Account with code ... not found"` without issuing the `PUT
/Payments` request (the final `Bool` records whether that request was
issued).  A cached value under an accounts key is always `XValue.accounts`;
the last branch is the shape guard the heterogeneous store model needs. -/
def createPayment (env : Env) (cacheDisabled : Bool) (cst : CacheState XValue)
    (now : Nat) (options : CreatePaymentOptions) :
    Except String Payment × CacheState XValue × Bool :=
  let f := listAccounts env cacheDisabled cst now
    { whereClause := none, order := none, tenantId := options.tenantId }
  match f.result with
  | Except.error e => (Except.error e, f.state, false)
  | Except.ok (XValue.accounts accountList) =>
    match accountList.find? (fun a => a.code == some options.accountCode) with
    | none =>
        (Except.error ("Account with code " ++ options.accountCode ++ " not found"),
         f.state, false)
    | some account =>
      match env.createPaymentResponse options account.accountID with
      | Except.error e => (Except.error e, f.state, true)
      | Except.ok pay => (Except.ok pay, f.state, true)
  | Except.ok _ => (Except.error "unexpected cached value shape", f.state, false)

-- ==================== Client state (tenant ID handling) ====================

/-- The `XeroClient` fields the verified operations touch: the in-memory
tenant ID, the persisted tenant-ID file content, and the `cacheDisabled`
flag. -/
structure ClientState where
  tenantId : Option String
  tenantFile : Option String
  cacheDisabled : Bool
deriving Repr, DecidableEq

/-- `saveTenantId`: persist the tenant ID to the tenant-ID file. -/
def saveTenantId (c : ClientState) (tenantId : String) : ClientState :=
  { c with tenantFile := some tenantId }

/-- `clearTenantId`: delete the persisted tenant-ID file. -/
def clearTenantId (c : ClientState) : ClientState :=
  { c with tenantFile := none }

/-- `disableCache`: set `this.cacheDisabled` and disable the shared cache. -/
def disableCache (c : ClientState) (cst : CacheState XValue) :
    ClientState × CacheState XValue :=
  ({ c with cacheDisabled := true }, disable cst)

/-- `enableCache`: clear `this.cacheDisabled` and re-enable the shared
cache. -/
def enableCache (c : ClientState) (cst : CacheState XValue) :
    ClientState × CacheState XValue :=
  ({ c with cacheDisabled := false }, enable cst)

/-- `getTenantId`: use the explicit option if provided, else the in-memory
tenant ID, else discover via the connections endpoint (taking the first
connection, remembering and persisting it).  The `Bool` records whether the
connections endpoint was consulted. -/
def getTenantId (c : ClientState) (connections : List String)
    (optionTenantId : Option String) :
    Except String (String × ClientState) × Bool :=
  match optionTenantId with
  | some t => (Except.ok (t, c), false)
  | none =>
    match c.tenantId with
    | some t => (Except.ok (t, c), false)
    | none =>
      match connections with
      | [] =>
          (Except.error "No Xero organisations connected. Please connect an organisation in the Xero Developer Portal.",
           true)
      | t :: _ => (Except.ok (t, saveTenantId { c with tenantId := some t } t), true)

/-- `clearCache`: delete the persisted tenant-ID file, reset the in-memory
tenant ID to null, then clear the cache, returning the number of entries
removed. -/
def clearCache (c : ClientState) (cst : CacheState XValue) :
    Nat × ClientState × CacheState XValue :=
  let c1 := clearTenantId c
  let c2 := { c1 with tenantId := none }
  let cleared := clear cst
  (cleared.1, c2, cleared.2)

-- ==================== Shared composition lemma and samples ====================

theorem getOrFetch_second_hit {E V : Type} (st : CacheState V) (now now2 T : Nat)
    (key : String) (v : V) (p2 : Except E V) (ttl2 : Option Nat)
    (henabled : st.enabled = true)
    (hmiss : lookupLive st now key = none)
    (hfresh : now2 ≤ now + T) :
    (getOrFetch (getOrFetch st now key (Except.ok v : Except E V) (some T) false).state
        now2 key p2 ttl2 false).result = Except.ok v ∧
    (getOrFetch (getOrFetch st now key (Except.ok v : Except E V) (some T) false).state
        now2 key p2 ttl2 false).producerInvoked = false := by
  have h1 := getOrFetch_miss_ok (E := E) st now key v (some T) henabled hmiss
  have hlook :
      lookupLive (storeEntry { st with misses := st.misses + 1 } now key v
        ((some T).getD st.defaultTTL)) now2 key = some v := by
    rw [lookupLive_storeEntry_self]
    simp [hfresh]
  have hen2 :
      (storeEntry { st with misses := st.misses + 1 } now key v
        ((some T).getD st.defaultTTL)).enabled = true := henabled
  have h2 := getOrFetch_hit _ now2 key p2 ttl2 v hen2 hlook
  simp only [Option.getD_some] at h1 h2 hlook
  simp [h1, h2]

/-- A sample contact used by the concrete witnesses. -/
def sampleContactA : Contact := { contactID := "id-a", name := "A" }

/-- A sample bank account (code `200`) used by the concrete witnesses. -/
def sampleAccount : Account := { accountID := "acc-1", code := some "200" }

/-- A sample response environment used by the concrete witnesses. -/
def sampleEnv : Env :=
  { fetchContacts := fun _ => Except.ok [sampleContactA]
    fetchAccounts := fun _ => Except.ok [sampleAccount]
    fetchTaxRates := fun _ => Except.ok ["GST"]
    fetchOrganisation := fun _ => Except.ok (some "Org")
    createContactResponse := fun _ => Except.ok [sampleContactA]
    updateContactResponse := fun _ _ => Except.ok [sampleContactA]
    createPaymentResponse := fun _ _ => Except.ok { paymentID := "pay-1" } }

/-- A sample cache with two `contacts:*` entries and one `accounts:*` entry,
matching the pattern-invalidation example of the specification. -/
def sampleCst : CacheState XValue :=
  { entries :=
      [("contacts:a", { value := XValue.contacts [], expiresAt := 100, createdAt := 0 }),
       ("contacts:b", { value := XValue.contacts [], expiresAt := 100, createdAt := 0 }),
       ("accounts:c", { value := XValue.accounts [], expiresAt := 100, createdAt := 0 })],
    hits := 0, misses := 0, enabled := true, defaultTTL := 10 }

/-- Sample `createContact` options used by the concrete witnesses. -/
def sampleCreateOpts : CreateContactOptions :=
  { name := "John", email := none, firstName := none, lastName := none,
    phone := none, tenantId := none }

/-- Sample `updateContact` options used by the concrete witnesses. -/
def sampleUpdateOpts : UpdateContactOptions :=
  { name := some "John", email := none, firstName := none, lastName := none,
    phone := none, tenantId := none }

/-- Sample `listContacts` options (tenant `t1`) used by the concrete
witnesses. -/
def sampleListOpts : ListContactsOptions :=
  { page := none, whereClause := none, order := none, tenantId := some "t1" }

/-- Sample `createPayment` options (unknown account code `999`) used by the
concrete witnesses. -/
def samplePaymentOpts : CreatePaymentOptions :=
  { invoiceId := "inv-1", accountCode := "999", amount := 100, date := none,
    reference := none, tenantId := none }

-- ==================== Claim theorems ====================

/-- C1: Read-through correctness — with the cache enabled and no bypass, the
first `getOrFetch(k, p)` invokes `p` exactly once, stores its result and
returns it; a second `getOrFetch` with the same key before the TTL of the entry
has elapsed, without bypass, returns the stored value without invoking its
producer and records a hit. -/
theorem c1_read_through {E V : Type} (st : CacheState V) (now now2 T : Nat)
    (key : String) (v : V) (p2 : Except E V) {r1 r2 : FetchResult E V}
    (henabled : st.enabled = true)
    (hmiss : lookupLive st now key = none)
    (hfresh : now2 ≤ now + T)
    (hr1 : r1 = getOrFetch st now key (Except.ok v) (some T) false)
    (hr2 : r2 = getOrFetch r1.state now2 key p2 (some T) false) :
    r1.result = Except.ok v ∧ r1.producerInvoked = true ∧
    lookupLive r1.state now2 key = some v ∧
    r2.result = Except.ok v ∧ r2.producerInvoked = false ∧
    r2.state.hits = r1.state.hits + 1 ∧ r2.state.entries = r1.state.entries := by
  subst hr1 hr2
  have h1 := getOrFetch_miss_ok (E := E) st now key v (some T) henabled hmiss
  have hlook :
      lookupLive (storeEntry { st with misses := st.misses + 1 } now key v
        ((some T).getD st.defaultTTL)) now2 key = some v := by
    rw [lookupLive_storeEntry_self]
    simp [hfresh]
  have hen2 :
      (storeEntry { st with misses := st.misses + 1 } now key v
        ((some T).getD st.defaultTTL)).enabled = true := henabled
  have h2 := getOrFetch_hit _ now2 key p2 (some T) v hen2 hlook
  simp only [Option.getD_some] at h1 h2 hlook
  simp [h1, h2, hlook]

/-- Witness for C1 at a concrete input: an empty cache, key `contacts`,
value `42`, TTL `5`, second read at time `3`. -/
theorem c1_read_through_witness :
    ((CacheState.init Nat 10).enabled = true ∧
     lookupLive (CacheState.init Nat 10) 0 "contacts" = none ∧
     (3 : Nat) ≤ 0 + 5) ∧
    ((getOrFetch (CacheState.init Nat 10) 0 "contacts"
        (Except.ok 42 : Except String Nat) (some 5) false).result = Except.ok 42 ∧
     (getOrFetch (CacheState.init Nat 10) 0 "contacts"
        (Except.ok 42 : Except String Nat) (some 5) false).producerInvoked = true ∧
     lookupLive (getOrFetch (CacheState.init Nat 10) 0 "contacts"
        (Except.ok 42 : Except String Nat) (some 5) false).state 3 "contacts" = some 42 ∧
     (getOrFetch (getOrFetch (CacheState.init Nat 10) 0 "contacts"
        (Except.ok 42 : Except String Nat) (some 5) false).state 3 "contacts"
        (Except.error "boom" : Except String Nat) (some 5) false).result = Except.ok 42 ∧
     (getOrFetch (getOrFetch (CacheState.init Nat 10) 0 "contacts"
        (Except.ok 42 : Except String Nat) (some 5) false).state 3 "contacts"
        (Except.error "boom" : Except String Nat) (some 5) false).producerInvoked = false ∧
     (getOrFetch (getOrFetch (CacheState.init Nat 10) 0 "contacts"
        (Except.ok 42 : Except String Nat) (some 5) false).state 3 "contacts"
        (Except.error "boom" : Except String Nat) (some 5) false).state.hits =
       (getOrFetch (CacheState.init Nat 10) 0 "contacts"
        (Except.ok 42 : Except String Nat) (some 5) false).state.hits + 1 ∧
     (getOrFetch (getOrFetch (CacheState.init Nat 10) 0 "contacts"
        (Except.ok 42 : Except String Nat) (some 5) false).state 3 "contacts"
        (Except.error "boom" : Except String Nat) (some 5) false).state.entries =
       (getOrFetch (CacheState.init Nat 10) 0 "contacts"
        (Except.ok 42 : Except String Nat) (some 5) false).state.entries) :=
  ⟨⟨rfl, rfl, by decide⟩,
   c1_read_through (CacheState.init Nat 10) 0 3 5 "contacts" 42
     (Except.error "boom") rfl rfl (by decide) rfl rfl⟩

/-- C3: Producer-failure atomicity — when the producer invoked by
`getOrFetch` fails, the same error propagates unchanged, no entry is stored
or modified under that key, and a subsequent `getOrFetch` on that key (which
has no prior entry) is still a miss that invokes its producer. -/
theorem c3_producer_failure {E V : Type} (st : CacheState V) (now now2 : Nat)
    (key : String) (err : E) (p2 : Except E V) (ttl ttl2 : Option Nat)
    {r1 r2 : FetchResult E V}
    (henabled : st.enabled = true)
    (habsent : st.entries.find? (fun kv => kv.1 == key) = none)
    (hr1 : r1 = getOrFetch st now key (Except.error err) ttl false)
    (hr2 : r2 = getOrFetch r1.state now2 key p2 ttl2 false) :
    r1.result = Except.error err ∧
    r1.state.entries = st.entries ∧
    r1.producerInvoked = true ∧
    r2.producerInvoked = true ∧
    r2.result = p2 ∧
    r2.state.misses = r1.state.misses + 1 := by
  subst hr1 hr2
  have hmiss : lookupLive st now key = none := lookupLive_absent st now key habsent
  have h1 := getOrFetch_miss_error st now key err ttl henabled hmiss
  have hmiss2 :
      lookupLive { st with misses := st.misses + 1 } now2 key = none :=
    lookupLive_absent _ now2 key habsent
  have hen2 : ({ st with misses := st.misses + 1 } : CacheState V).enabled = true :=
    henabled
  cases p2 with
  | ok v2 =>
    have h2 := getOrFetch_miss_ok (E := E) _ now2 key v2 ttl2 hen2 hmiss2
    simp [h1, h2, storeEntry]
  | error e2 =>
    have h2 := getOrFetch_miss_error _ now2 key e2 ttl2 hen2 hmiss2
    simp [h1, h2, storeEntry]

/-- Witness for C3 at a concrete input: an empty cache, failing producer
`"boom"`, then a successful retry producing `7`. -/
theorem c3_producer_failure_witness :
    ((CacheState.init Nat 10).enabled = true ∧
     (CacheState.init Nat 10).entries.find? (fun kv => kv.1 == "accounts") = none) ∧
    ((getOrFetch (CacheState.init Nat 10) 0 "accounts"
        (Except.error "boom" : Except String Nat) (some 5) false).result =
          Except.error "boom" ∧
     (getOrFetch (CacheState.init Nat 10) 0 "accounts"
        (Except.error "boom" : Except String Nat) (some 5) false).state.entries =
          (CacheState.init Nat 10).entries ∧
     (getOrFetch (CacheState.init Nat 10) 0 "accounts"
        (Except.error "boom" : Except String Nat) (some 5) false).producerInvoked = true ∧
     (getOrFetch (getOrFetch (CacheState.init Nat 10) 0 "accounts"
        (Except.error "boom" : Except String Nat) (some 5) false).state 1 "accounts"
        (Except.ok 7 : Except String Nat) (some 5) false).producerInvoked = true ∧
     (getOrFetch (getOrFetch (CacheState.init Nat 10) 0 "accounts"
        (Except.error "boom" : Except String Nat) (some 5) false).state 1 "accounts"
        (Except.ok 7 : Except String Nat) (some 5) false).result = Except.ok 7 ∧
     (getOrFetch (getOrFetch (CacheState.init Nat 10) 0 "accounts"
        (Except.error "boom" : Except String Nat) (some 5) false).state 1 "accounts"
        (Except.ok 7 : Except String Nat) (some 5) false).state.misses =
       (getOrFetch (CacheState.init Nat 10) 0 "accounts"
        (Except.error "boom" : Except String Nat) (some 5) false).state.misses + 1) :=
  ⟨⟨rfl, rfl⟩,
   c3_producer_failure (CacheState.init Nat 10) 0 1 "accounts" "boom"
     (Except.ok 7) (some 5) (some 5) rfl rfl rfl rfl⟩

/-- C4: Disable/enable round-trip — after `disable()`, a `getOrFetch` call
invokes its producer even though a live entry exists for the key, discarding
no stored entries; after `enable()`, a `getOrFetch` on a key whose stored
entry has not expired returns the stored value as a hit without invoking the
producer. -/
theorem c4_disable_enable {E V : Type} (st : CacheState V) (now now2 : Nat)
    (key : String) (v : V) (p1 p2 : Except E V) (ttl ttl2 : Option Nat)
    {r1 r2 : FetchResult E V}
    (hlive : lookupLive st now key = some v)
    (hlive2 : lookupLive st now2 key = some v)
    (hr1 : r1 = getOrFetch (disable st) now key p1 ttl false)
    (hr2 : r2 = getOrFetch (enable r1.state) now2 key p2 ttl2 false) :
    r1.result = p1 ∧ r1.producerInvoked = true ∧
    r1.state.entries = st.entries ∧
    r2.result = Except.ok v ∧ r2.producerInvoked = false := by
  subst hr1 hr2
  have h1 := getOrFetch_disabled (disable st) now key p1 ttl false rfl
  have hlive2b : lookupLive (enable (disable st)) now2 key = some v := hlive2
  have h2 := getOrFetch_hit (enable (disable st)) now2 key p2 ttl2 v rfl hlive2b
  simp [h1, h2]
  rfl

/-- Witness for C4 at a concrete input: a cache holding `("k", 9)` live until
time `10`; disable, read at `1`, enable, read at `2`. -/
theorem c4_disable_enable_witness :
    (lookupLive
        { entries := [("k", { value := 9, expiresAt := 10, createdAt := 0 })],
          hits := 0, misses := 0, enabled := true, defaultTTL := 10 } 1 "k" =
        some 9 ∧
     lookupLive
        { entries := [("k", { value := 9, expiresAt := 10, createdAt := 0 })],
          hits := 0, misses := 0, enabled := true, defaultTTL := 10 } 2 "k" =
        some 9) ∧
    ((getOrFetch (disable
        { entries := [("k", { value := 9, expiresAt := 10, createdAt := 0 })],
          hits := 0, misses := 0, enabled := true, defaultTTL := 10 }) 1 "k"
        (Except.ok 5 : Except String Nat) (some 5) false).result = Except.ok 5 ∧
     (getOrFetch (disable
        { entries := [("k", { value := 9, expiresAt := 10, createdAt := 0 })],
          hits := 0, misses := 0, enabled := true, defaultTTL := 10 }) 1 "k"
        (Except.ok 5 : Except String Nat) (some 5) false).producerInvoked = true ∧
     (getOrFetch (disable
        { entries := [("k", { value := 9, expiresAt := 10, createdAt := 0 })],
          hits := 0, misses := 0, enabled := true, defaultTTL := 10 }) 1 "k"
        (Except.ok 5 : Except String Nat) (some 5) false).state.entries =
       ({ entries := [("k", { value := 9, expiresAt := 10, createdAt := 0 })],
          hits := 0, misses := 0, enabled := true, defaultTTL := 10 } :
            CacheState Nat).entries ∧
     (getOrFetch (enable (getOrFetch (disable
        { entries := [("k", { value := 9, expiresAt := 10, createdAt := 0 })],
          hits := 0, misses := 0, enabled := true, defaultTTL := 10 }) 1 "k"
        (Except.ok 5 : Except String Nat) (some 5) false).state) 2 "k"
        (Except.ok 6 : Except String Nat) (some 5) false).result = Except.ok 9 ∧
     (getOrFetch (enable (getOrFetch (disable
        { entries := [("k", { value := 9, expiresAt := 10, createdAt := 0 })],
          hits := 0, misses := 0, enabled := true, defaultTTL := 10 }) 1 "k"
        (Except.ok 5 : Except String Nat) (some 5) false).state) 2 "k"
        (Except.ok 6 : Except String Nat) (some 5) false).producerInvoked = false) :=
  ⟨⟨by decide, by decide⟩,
   c4_disable_enable
     { entries := [("k", { value := 9, expiresAt := 10, createdAt := 0 })],
       hits := 0, misses := 0, enabled := true, defaultTTL := 10 }
     1 2 "k" 9 (Except.ok 5) (Except.ok 6) (some 5) (some 5)
     (by decide) (by decide) rfl rfl⟩

/-- C5: Bypass never stores — a `getOrFetch` with `bypassCache` true (or with
the cache globally disabled) invokes the producer, returns its result and
leaves the cache state unchanged; a following `getOrFetch` on the same key
without bypass, with no prior entry, invokes its own producer. -/
theorem c5_bypass_never_stores {E V : Type} (st : CacheState V) (now now2 : Nat)
    (key : String) (p1 p2 : Except E V) (ttl ttl2 : Option Nat)
    {r1 r2 : FetchResult E V}
    (henabled : st.enabled = true)
    (habsent : st.entries.find? (fun kv => kv.1 == key) = none)
    (hr1 : r1 = getOrFetch st now key p1 ttl true)
    (hr2 : r2 = getOrFetch r1.state now2 key p2 ttl2 false) :
    r1.result = p1 ∧ r1.state = st ∧ r1.producerInvoked = true ∧
    r2.producerInvoked = true ∧ r2.result = p2 ∧
    (getOrFetch (disable st) now key p1 ttl false).state = disable st ∧
    (getOrFetch (disable st) now key p1 ttl false).result = p1 := by
  subst hr1 hr2
  have h1 := getOrFetch_bypass st now key p1 ttl
  have hd := getOrFetch_disabled (disable st) now key p1 ttl false rfl
  have hmiss2 : lookupLive st now2 key = none := lookupLive_absent st now2 key habsent
  cases p2 with
  | ok v2 =>
    have h2 := getOrFetch_miss_ok (E := E) st now2 key v2 ttl2 henabled hmiss2
    simp [h1, h2, hd]
  | error e2 =>
    have h2 := getOrFetch_miss_error st now2 key e2 ttl2 henabled hmiss2
    simp [h1, h2, hd]

/-- Witness for C5 at a concrete input: a bypassed read producing `1` on an
empty cache, then a plain read producing `2` that must invoke its producer. -/
theorem c5_bypass_never_stores_witness :
    ((CacheState.init Nat 10).enabled = true ∧
     (CacheState.init Nat 10).entries.find? (fun kv => kv.1 == "k") = none) ∧
    ((getOrFetch (CacheState.init Nat 10) 0 "k"
        (Except.ok 1 : Except String Nat) (some 5) true).result = Except.ok 1 ∧
     (getOrFetch (CacheState.init Nat 10) 0 "k"
        (Except.ok 1 : Except String Nat) (some 5) true).state =
          CacheState.init Nat 10 ∧
     (getOrFetch (CacheState.init Nat 10) 0 "k"
        (Except.ok 1 : Except String Nat) (some 5) true).producerInvoked = true ∧
     (getOrFetch (getOrFetch (CacheState.init Nat 10) 0 "k"
        (Except.ok 1 : Except String Nat) (some 5) true).state 1 "k"
        (Except.ok 2 : Except String Nat) (some 5) false).producerInvoked = true ∧
     (getOrFetch (getOrFetch (CacheState.init Nat 10) 0 "k"
        (Except.ok 1 : Except String Nat) (some 5) true).state 1 "k"
        (Except.ok 2 : Except String Nat) (some 5) false).result = Except.ok 2 ∧
     (getOrFetch (disable (CacheState.init Nat 10)) 0 "k"
        (Except.ok 1 : Except String Nat) (some 5) false).state =
          disable (CacheState.init Nat 10) ∧
     (getOrFetch (disable (CacheState.init Nat 10)) 0 "k"
        (Except.ok 1 : Except String Nat) (some 5) false).result = Except.ok 1) :=
  ⟨⟨rfl, rfl⟩,
   c5_bypass_never_stores (CacheState.init Nat 10) 0 1 "k"
     (Except.ok 1) (Except.ok 2) (some 5) (some 5) rfl rfl rfl rfl⟩

/-- C7: Expiry — a `getOrFetch` on a key whose stored TTL has strictly
elapsed treats the entry as absent: it is never served as a hit, the call
records a miss, invokes the producer again and stores the fresh result. -/
theorem c7_expiry {E V : Type} (st : CacheState V) (now : Nat) (key : String)
    (entry : CacheEntry V) (v2 : V) (T : Nat) {r : FetchResult E V}
    (henabled : st.enabled = true)
    (hfind : st.entries.find? (fun kv => kv.1 == key) = some (key, entry))
    (hexpired : entry.expiresAt < now)
    (hr : r = getOrFetch st now key (Except.ok v2) (some T) false) :
    lookupLive st now key = none ∧
    r.producerInvoked = true ∧
    r.result = Except.ok v2 ∧
    r.state.misses = st.misses + 1 ∧
    lookupLive r.state now key = some v2 := by
  subst hr
  have hmiss : lookupLive st now key = none := by
    simp [lookupLive, hfind, Nat.not_le.mpr hexpired]
  have h1 := getOrFetch_miss_ok (E := E) st now key v2 (some T) henabled hmiss
  simp only [Option.getD_some] at h1
  simp [h1, hmiss, lookupLive_storeEntry_self]
  rfl

/-- Witness for C7 at a concrete input: an entry that expired at time `2`,
read again at time `5` with a fresh producer value `8`. -/
theorem c7_expiry_witness :
    (({ entries := [("k", { value := 9, expiresAt := 2, createdAt := 0 })],
        hits := 0, misses := 0, enabled := true, defaultTTL := 10 } :
          CacheState Nat).enabled = true ∧
     ({ entries := [("k", { value := 9, expiresAt := 2, createdAt := 0 })],
        hits := 0, misses := 0, enabled := true, defaultTTL := 10 } :
          CacheState Nat).entries.find? (fun kv => kv.1 == "k") =
        some ("k", { value := 9, expiresAt := 2, createdAt := 0 }) ∧
     (2 : Nat) < 5) ∧
    (lookupLive
        { entries := [("k", { value := 9, expiresAt := 2, createdAt := 0 })],
          hits := 0, misses := 0, enabled := true, defaultTTL := 10 } 5 "k" =
        (none : Option Nat) ∧
     (getOrFetch
        { entries := [("k", { value := 9, expiresAt := 2, createdAt := 0 })],
          hits := 0, misses := 0, enabled := true, defaultTTL := 10 } 5 "k"
        (Except.ok 8 : Except String Nat) (some 5) false).producerInvoked = true ∧
     (getOrFetch
        { entries := [("k", { value := 9, expiresAt := 2, createdAt := 0 })],
          hits := 0, misses := 0, enabled := true, defaultTTL := 10 } 5 "k"
        (Except.ok 8 : Except String Nat) (some 5) false).result = Except.ok 8 ∧
     (getOrFetch
        { entries := [("k", { value := 9, expiresAt := 2, createdAt := 0 })],
          hits := 0, misses := 0, enabled := true, defaultTTL := 10 } 5 "k"
        (Except.ok 8 : Except String Nat) (some 5) false).state.misses = 0 + 1 ∧
     lookupLive (getOrFetch
        { entries := [("k", { value := 9, expiresAt := 2, createdAt := 0 })],
          hits := 0, misses := 0, enabled := true, defaultTTL := 10 } 5 "k"
        (Except.ok 8 : Except String Nat) (some 5) false).state 5 "k" = some 8) :=
  ⟨⟨rfl, by decide, by decide⟩,
   c7_expiry
     { entries := [("k", { value := 9, expiresAt := 2, createdAt := 0 })],
       hits := 0, misses := 0, enabled := true, defaultTTL := 10 }
     5 "k" { value := 9, expiresAt := 2, createdAt := 0 } 8 5
     rfl (by decide) (by decide) rfl⟩

/-- C6: Pattern invalidation exactness — `invalidatePattern(p)` removes
exactly the entries whose key matches `p` and returns their count, leaving
non-matching entries retrievable as hits; and `createContact` and
`updateContact` each invalidate `/^contacts/` after a successful write. -/
theorem c6_invalidate_pattern (st : CacheState XValue) (p : String → Bool)
    (now : Nat) (key : String) (env : Env) (cst cst2 : CacheState XValue)
    (o : CreateContactOptions) (contactId : String) (u : UpdateContactOptions)
    (c c2 : Contact) (rest rest2 : List Contact)
    (hk : p key = false)
    (hresp : env.createContactResponse o = Except.ok (c :: rest))
    (hresp2 : env.updateContactResponse contactId u = Except.ok (c2 :: rest2)) :
    (invalidatePattern st p).1 = (st.entries.filter (fun kv => p kv.1)).length ∧
    (invalidatePattern st p).2.entries = st.entries.filter (fun kv => !p kv.1) ∧
    lookupLive (invalidatePattern st p).2 now key = lookupLive st now key ∧
    createContact env cst o =
      (Except.ok c, (invalidatePattern cst contactsPattern).2) ∧
    updateContact env contactId u cst2 =
      (Except.ok c2, (invalidatePattern cst2 contactsPattern).2) := by
  refine ⟨rfl, rfl, ?_, ?_, ?_⟩
  · exact lookupLive_filter_of_not st p now key hk
  · simp [createContact, hresp]
  · simp [updateContact, hresp2]

/-- Witness for C6 at the example given in the specification: entries `contacts:a`,
`contacts:b`, `accounts:c`; invalidating `/^contacts/` removes exactly two
entries and `accounts:c` is still served. -/
theorem c6_invalidate_pattern_witness :
    (contactsPattern "accounts:c" = false ∧
     sampleEnv.createContactResponse sampleCreateOpts =
       Except.ok (sampleContactA :: []) ∧
     sampleEnv.updateContactResponse "cid-1" sampleUpdateOpts =
       Except.ok (sampleContactA :: [])) ∧
    ((invalidatePattern sampleCst contactsPattern).1 =
       (sampleCst.entries.filter (fun kv => contactsPattern kv.1)).length ∧
     (invalidatePattern sampleCst contactsPattern).2.entries =
       sampleCst.entries.filter (fun kv => !contactsPattern kv.1) ∧
     lookupLive (invalidatePattern sampleCst contactsPattern).2 50 "accounts:c" =
       lookupLive sampleCst 50 "accounts:c" ∧
     createContact sampleEnv sampleCst sampleCreateOpts =
       (Except.ok sampleContactA, (invalidatePattern sampleCst contactsPattern).2) ∧
     updateContact sampleEnv "cid-1" sampleUpdateOpts sampleCst =
       (Except.ok sampleContactA, (invalidatePattern sampleCst contactsPattern).2)) ∧
    (invalidatePattern sampleCst contactsPattern).1 = 2 ∧
    lookupLive (invalidatePattern sampleCst contactsPattern).2 50 "accounts:c" =
      some (XValue.accounts []) :=
  ⟨⟨by decide, rfl, rfl⟩,
   c6_invalidate_pattern sampleCst contactsPattern 50 "accounts:c" sampleEnv
     sampleCst sampleCst sampleCreateOpts "cid-1" sampleUpdateOpts
     sampleContactA sampleContactA [] [] (by decide) rfl rfl,
   by decide, by decide⟩

/-- C2: The cache keys of `listContacts`, `listAccounts`, `listTaxRates` and
`getOrganisation` do not depend on the `tenantId` argument (the latter two
use the fixed keys `tax_rates` and `organisation`), so within the TTL a
second call that differs only in `tenantId` is served the cached data of the
first tenant without issuing a request. -/
theorem c2_tenant_not_in_key (o : ListContactsOptions) (oa : ListAccountsOptions)
    (t t2 tb : Option String) (env : Env) (cst cstx csty : CacheState XValue)
    (now now2 : Nat) (cs : List Contact) (ts : List String) (org : Option String)
    (henabled : cst.enabled = true)
    (hmiss : lookupLive cst now (contactsCacheKey o) = none)
    (hfetch : env.fetchContacts o = Except.ok cs)
    (hfresh : now2 ≤ now + TTL.HOUR)
    (henx : cstx.enabled = true)
    (hmissx : lookupLive cstx now "tax_rates" = none)
    (hfetchx : env.fetchTaxRates t = Except.ok ts)
    (hfreshx : now2 ≤ now + TTL.DAY)
    (heny : csty.enabled = true)
    (hmissy : lookupLive csty now "organisation" = none)
    (hfetchy : env.fetchOrganisation t = Except.ok org) :
    contactsCacheKey { o with tenantId := tb } = contactsCacheKey o ∧
    accountsCacheKey { oa with tenantId := tb } = accountsCacheKey oa ∧
    ((listContacts env false (listContacts env false cst now o).state now2
        { o with tenantId := t2 }).result = Except.ok (XValue.contacts cs) ∧
     (listContacts env false (listContacts env false cst now o).state now2
        { o with tenantId := t2 }).producerInvoked = false) ∧
    ((listTaxRates env false (listTaxRates env false cstx now t).state now2
        t2).result = Except.ok (XValue.taxRates ts) ∧
     (listTaxRates env false (listTaxRates env false cstx now t).state now2
        t2).producerInvoked = false) ∧
    ((getOrganisation env false (getOrganisation env false csty now t).state now2
        t2).result = Except.ok (XValue.organisation org) ∧
     (getOrganisation env false (getOrganisation env false csty now t).state now2
        t2).producerInvoked = false) := by
  refine ⟨rfl, rfl, ?_, ?_, ?_⟩
  · have hprod : (env.fetchContacts o).map XValue.contacts =
        Except.ok (XValue.contacts cs) := by rw [hfetch]; rfl
    have hkey : contactsCacheKey { o with tenantId := t2 } = contactsCacheKey o := rfl
    have h := getOrFetch_second_hit (E := String) cst now now2 TTL.HOUR
      (contactsCacheKey o) (XValue.contacts cs)
      ((env.fetchContacts { o with tenantId := t2 }).map XValue.contacts)
      (some TTL.HOUR) henabled hmiss hfresh
    simpa [listContacts, hprod, hkey] using h
  · have hprod : (env.fetchTaxRates t).map XValue.taxRates =
        Except.ok (XValue.taxRates ts) := by rw [hfetchx]; rfl
    have h := getOrFetch_second_hit (E := String) cstx now now2 TTL.DAY
      "tax_rates" (XValue.taxRates ts)
      ((env.fetchTaxRates t2).map XValue.taxRates)
      (some TTL.DAY) henx hmissx hfreshx
    simpa [listTaxRates, hprod] using h
  · have hprod : (env.fetchOrganisation t).map XValue.organisation =
        Except.ok (XValue.organisation org) := by rw [hfetchy]; rfl
    have h := getOrFetch_second_hit (E := String) csty now now2 TTL.DAY
      "organisation" (XValue.organisation org)
      ((env.fetchOrganisation t2).map XValue.organisation)
      (some TTL.DAY) heny hmissy hfreshx
    simpa [getOrganisation, hprod] using h

/-- Witness for C2 at a concrete input: first calls with tenant `t1` on empty
caches, second calls with tenant `t2` at time `1`. -/
theorem c2_tenant_not_in_key_witness :
    ((CacheState.init XValue 10).enabled = true ∧
     lookupLive (CacheState.init XValue 10) 0 (contactsCacheKey sampleListOpts) = none ∧
     sampleEnv.fetchContacts sampleListOpts = Except.ok [sampleContactA] ∧
     (1 : Nat) ≤ 0 + TTL.HOUR ∧
     lookupLive (CacheState.init XValue 10) 0 "tax_rates" = none ∧
     sampleEnv.fetchTaxRates (some "t1") = Except.ok ["GST"] ∧
     (1 : Nat) ≤ 0 + TTL.DAY ∧
     lookupLive (CacheState.init XValue 10) 0 "organisation" = none ∧
     sampleEnv.fetchOrganisation (some "t1") = Except.ok (some "Org")) ∧
    (contactsCacheKey { sampleListOpts with tenantId := some "t9" } =
       contactsCacheKey sampleListOpts ∧
     accountsCacheKey { whereClause := none, order := none, tenantId := some "t9" } =
       accountsCacheKey { whereClause := none, order := none, tenantId := some "t1" } ∧
     ((listContacts sampleEnv false
        (listContacts sampleEnv false (CacheState.init XValue 10) 0 sampleListOpts).state
        1 { sampleListOpts with tenantId := some "t2" }).result =
          Except.ok (XValue.contacts [sampleContactA]) ∧
      (listContacts sampleEnv false
        (listContacts sampleEnv false (CacheState.init XValue 10) 0 sampleListOpts).state
        1 { sampleListOpts with tenantId := some "t2" }).producerInvoked = false) ∧
     ((listTaxRates sampleEnv false
        (listTaxRates sampleEnv false (CacheState.init XValue 10) 0 (some "t1")).state
        1 (some "t2")).result = Except.ok (XValue.taxRates ["GST"]) ∧
      (listTaxRates sampleEnv false
        (listTaxRates sampleEnv false (CacheState.init XValue 10) 0 (some "t1")).state
        1 (some "t2")).producerInvoked = false) ∧
     ((getOrganisation sampleEnv false
        (getOrganisation sampleEnv false (CacheState.init XValue 10) 0 (some "t1")).state
        1 (some "t2")).result = Except.ok (XValue.organisation (some "Org")) ∧
      (getOrganisation sampleEnv false
        (getOrganisation sampleEnv false (CacheState.init XValue 10) 0 (some "t1")).state
        1 (some "t2")).producerInvoked = false)) :=
  ⟨⟨rfl, rfl, rfl, by decide, rfl, rfl, by decide, rfl, rfl⟩,
   c2_tenant_not_in_key sampleListOpts
     { whereClause := none, order := none, tenantId := some "t1" }
     (some "t1") (some "t2") (some "t9") sampleEnv
     (CacheState.init XValue 10) (CacheState.init XValue 10) (CacheState.init XValue 10)
     0 1 [sampleContactA] ["GST"] (some "Org")
     rfl rfl rfl (by decide) rfl rfl rfl (by decide) rfl rfl rfl⟩

/-- C8: Key determinism — `createCacheKey` is deterministic, omits
undefined/null fields and serializes the remaining fields in a stable order,
so parameter objects that agree on their defined fields (regardless of field
order or of the presence of undefined fields) produce identical keys. -/
theorem c8_key_determinism (op n : String) (p1 p2 : List (String × Option String))
    (hagree : (definedParams p1).Perm (definedParams p2))
    (hnodup : ((definedParams p1).map Prod.fst).Nodup) :
    createCacheKey op p1 = createCacheKey op p2 ∧
    createCacheKey op ((n, none) :: p1) = createCacheKey op p1 := by
  constructor
  · unfold createCacheKey
    rw [sortParams_eq_of_perm (definedParams p1) (definedParams p2) hagree hnodup]
  · rfl

/-- Witness for C8 at the example given in the specification:
`("list-contacts", {where: ..., page: undefined})` in either field order. -/
theorem c8_key_determinism_witness :
    ((definedParams [("where", some "Name==\"A\""), ("page", none)]).Perm
       (definedParams [("page", none), ("where", some "Name==\"A\"")]) ∧
     ((definedParams [("where", some "Name==\"A\""), ("page", none)]).map
        Prod.fst).Nodup) ∧
    (createCacheKey "list-contacts" [("where", some "Name==\"A\""), ("page", none)] =
       createCacheKey "list-contacts" [("page", none), ("where", some "Name==\"A\"")] ∧
     createCacheKey "list-contacts"
        (("page", none) :: [("where", some "Name==\"A\""), ("page", none)]) =
       createCacheKey "list-contacts" [("where", some "Name==\"A\""), ("page", none)]) :=
  ⟨⟨by decide, by decide⟩,
   c8_key_determinism "list-contacts" "page"
     [("where", some "Name==\"A\""), ("page", none)]
     [("page", none), ("where", some "Name==\"A\"")]
     (by decide) (by decide)⟩

/-- C9: `clearCache()` deletes the persisted tenant-ID file, resets the
in-memory tenant ID to null, clears the cache and returns the count of
removed entries; the next tenant-ID resolution without an explicit option
goes through the connections endpoint. -/
theorem c9_clear_cache (c : ClientState) (cst : CacheState XValue)
    (t : String) (rest : List String) :
    (clearCache c cst).2.1.tenantFile = none ∧
    (clearCache c cst).2.1.tenantId = none ∧
    (clearCache c cst).2.2.entries = [] ∧
    (clearCache c cst).1 = cst.entries.length ∧
    getTenantId (clearCache c cst).2.1 (t :: rest) none =
      (Except.ok (t, { tenantId := some t, tenantFile := some t,
                       cacheDisabled := c.cacheDisabled }), true) ∧
    getTenantId (clearCache c cst).2.1 [] none =
      (Except.error "No Xero organisations connected. Please connect an organisation in the Xero Developer Portal.",
       true) :=
  ⟨rfl, rfl, rfl, rfl, rfl, rfl⟩

/-- C10: `createPayment` fails before writing when the account code is
unknown: when no account returned by `listAccounts` (possibly cache-served)
has `Code` equal to `options.accountCode`, it throws
`"Account with code ... not found"` and the payment request is never
issued. -/
theorem c10_create_payment_unknown_account (env : Env) (cacheDisabled : Bool)
    (cst : CacheState XValue) (now : Nat) (o : CreatePaymentOptions)
    (accountList : List Account)
    (hacc : (listAccounts env cacheDisabled cst now
        { whereClause := none, order := none, tenantId := o.tenantId }).result =
          Except.ok (XValue.accounts accountList))
    (hnone : ∀ a ∈ accountList, ¬ a.code = some o.accountCode) :
    createPayment env cacheDisabled cst now o =
      (Except.error ("Account with code " ++ o.accountCode ++ " not found"),
       (listAccounts env cacheDisabled cst now
         { whereClause := none, order := none, tenantId := o.tenantId }).state,
       false) := by
  have hfind : accountList.find? (fun a => a.code == some o.accountCode) = none := by
    rw [List.find?_eq_none]
    intro a ha
    simpa using hnone a ha
  simp [createPayment, hacc, hfind]

/-- Witness for C10 at a concrete input: the chart of accounts holds only
code `200`; paying from code `999` fails without issuing the request. -/
theorem c10_create_payment_unknown_account_witness :
    ((listAccounts sampleEnv false (CacheState.init XValue 10) 0
        { whereClause := none, order := none,
          tenantId := samplePaymentOpts.tenantId }).result =
       Except.ok (XValue.accounts [sampleAccount]) ∧
     [sampleAccount].all (fun a => !(a.code == some "999")) = true) ∧
    createPayment sampleEnv false (CacheState.init XValue 10) 0 samplePaymentOpts =
      (Except.error ("Account with code " ++ samplePaymentOpts.accountCode ++
         " not found"),
       (listAccounts sampleEnv false (CacheState.init XValue 10) 0
         { whereClause := none, order := none,
           tenantId := samplePaymentOpts.tenantId }).state,
       false) :=
  ⟨⟨rfl, by decide⟩,
   c10_create_payment_unknown_account sampleEnv false (CacheState.init XValue 10)
     0 samplePaymentOpts [sampleAccount] rfl (by decide)⟩

end XeroPlugin
